import Mathlib

/-!
Verification development for the exam-proctoring engine of the `exampro`
repository: the client-side violation/escalation policy and countdown timer
(`src/client/src/pages/student/exam-complete.tsx`) and the server routes and
WebSocket incident pipeline (`src/server/routes.ts`).  The storage layer is
the `DatabaseStorage` implementation of `IStorage` (staged inside
`src/server/simple-name-verification.ts`); it is embedded as a list-based
record store whose operations mirror its drizzle queries.
-/

namespace ExamPro

/-! ## Client-side model (`ExamMode` component state and handlers) -/

/-- Client component state of `ExamMode`: the React `useState` cells
`violationCount`, `warningCount`, `isPaused`, `timeRemaining`,
`lookAwayCount`, `multipleFaceCount`, `showWarning`, `lastSnapshotTime`. -/
structure ClientState where
  violationCount : Nat
  warningCount : Nat
  isPaused : Bool
  timeRemaining : Nat
  lookAwayCount : Nat
  multipleFaceCount : Nat
  showWarning : Bool
  lastSnapshotTime : Nat
  deriving Repr, DecidableEq

/-- Messages the client emits: WebSocket sends (`security_violation`,
`policy_update`, `student_status`, `face_violation`), the HTTP incident
creation (`POST /api/security-incidents`), the scheduled auto-submit
(`setTimeout(submitExam, 2000)`), and the periodic lightweight status
broadcast. -/
inductive ClientMsg where
  | securityViolation (incidentType severity : String)
  | policyUpdate (action : String)
  | studentStatus (action : String)
  | faceViolation (incidentType severity : String)
  | httpIncident (incidentType severity : String)
  | scheduleAutoSubmit (delayMs : Nat)
  | statusUpdate
  deriving Repr, DecidableEq

/-- Embedding of `handleSecurityViolation` (exam-complete.tsx): increments the
browser violation counter, always sends a `security_violation` message, then
applies the escalation policy: first violation pauses, third or later
violation announces auto-submit and schedules `submitExam` after 2000 ms,
otherwise a warning-only status update is sent. -/
def handleSecurityViolation (st : ClientState) (violationType severity : String) :
    ClientState × List ClientMsg :=
  let n := st.violationCount + 1
  let st1 := { st with violationCount := n, warningCount := st.warningCount + 1,
                       showWarning := true }
  let sent := [ClientMsg.securityViolation violationType severity]
  if n = 1 then
    ({ st1 with isPaused := true }, sent ++ [ClientMsg.policyUpdate "paused"])
  else if 3 ≤ n then
    (st1, sent ++ [ClientMsg.policyUpdate "auto_submitted", ClientMsg.scheduleAutoSubmit 2000])
  else
    (st1, sent ++ [ClientMsg.studentStatus "warning"])

/-- Shape of one face-detection sample consumed by the monitoring effect. -/
structure FaceSample where
  faceDetected : Bool
  multipleFaces : Bool
  lookingAway : Bool
  deriving Repr, DecidableEq

/-- Embedding of the branch structure of `handleMonitoring` (face monitoring
effect): multiple faces beat looking-away; a looking-away streak warns at
count 1, sends a `looking_away_repeated`/high face violation at count 3 and a
`looking_away`/medium HTTP incident at every count above 3; otherwise the
streak is reset when a face is properly detected. -/
def faceBranch (st : ClientState) (s : FaceSample) : ClientState × List ClientMsg :=
  if s.multipleFaces then
    ({ st with multipleFaceCount := st.multipleFaceCount + 1, showWarning := true },
      [ClientMsg.faceViolation "multiple_faces" "critical"])
  else if s.lookingAway then
    if st.lookAwayCount + 1 = 1 then
      ({ st with lookAwayCount := st.lookAwayCount + 1, showWarning := true }, [])
    else if st.lookAwayCount + 1 = 3 then
      ({ st with lookAwayCount := st.lookAwayCount + 1, showWarning := true },
        [ClientMsg.faceViolation "looking_away_repeated" "high"])
    else if 3 < st.lookAwayCount + 1 then
      ({ st with lookAwayCount := st.lookAwayCount + 1 },
        [ClientMsg.httpIncident "looking_away" "medium"])
    else ({ st with lookAwayCount := st.lookAwayCount + 1 }, [])
  else
    if s.faceDetected && decide (0 < st.lookAwayCount) then
      ({ st with lookAwayCount := 0 }, [])
    else (st, [])

/-- Embedding of the trailing status broadcast of `handleMonitoring`: when a
face is detected and more than 10000 ms have passed since the last broadcast,
a lightweight `student_status` message is sent and the timestamp updated. -/
def statusStep (st : ClientState) (s : FaceSample) (now : Nat) :
    ClientState × List ClientMsg :=
  if s.faceDetected && decide (10000 < now - st.lastSnapshotTime) then
    ({ st with lastSnapshotTime := now }, [ClientMsg.statusUpdate])
  else (st, [])

/-- Embedding of `handleMonitoring`: the face-sample branch followed by the
status broadcast step. -/
def handleMonitoring (st : ClientState) (s : FaceSample) (now : Nat) :
    ClientState × List ClientMsg :=
  ((statusStep (faceBranch st s).1 s now).1,
    (faceBranch st s).2 ++ (statusStep (faceBranch st s).1 s now).2)

/-- Processing of a whole stream of face samples (with their arrival times)
through `handleMonitoring`, collecting all emitted messages. -/
def runFaceSamples : ClientState → List (FaceSample × Nat) → ClientState × List ClientMsg
  | st, [] => (st, [])
  | st, (s, now) :: rest =>
    let r := handleMonitoring st s now
    let rr := runFaceSamples r.1 rest
    (rr.1, r.2 ++ rr.2)

/-- Embedding of one firing of the countdown interval (timer effect): when at
most one second remains the time is set to 0 and `submitExam` is called
(`true`), otherwise the time decrements by one.  The effect never consults
`isPaused`, exactly as in the source. -/
def timerTick (st : ClientState) : ClientState × Bool :=
  if st.timeRemaining ≤ 1 then ({ st with timeRemaining := 0 }, true)
  else ({ st with timeRemaining := st.timeRemaining - 1 }, false)

/-- Running of `n` seconds of the countdown while the session exists and the
questions are loaded: the interval only runs while `timeRemaining > 0` (the
effect guard); the second component counts how many times `submitExam` was
triggered. -/
def runTimer : Nat → ClientState → ClientState × Nat
  | 0, st => (st, 0)
  | Nat.succ n, st =>
    if st.timeRemaining = 0 then (st, 0)
    else
      let t := timerTick st
      let r := runTimer n t.1
      (r.1, (if t.2 then 1 else 0) + r.2)

/-- Predicate for messages that persist an incident (directly or via the
server pipeline), as opposed to status-only traffic. -/
def isIncidentMsg : ClientMsg → Bool
  | ClientMsg.securityViolation _ _ => true
  | ClientMsg.faceViolation _ _ => true
  | ClientMsg.httpIncident _ _ => true
  | _ => false

/-- Predicate for messages that announce or trigger a session-state policy
action (pause or auto-submit). -/
def isPolicyAction : ClientMsg → Bool
  | ClientMsg.policyUpdate _ => true
  | ClientMsg.scheduleAutoSubmit _ => true
  | _ => false

/-! ## Server-side model (`src/server/routes.ts` plus the storage layer) -/

/-- Persisted security incident row (`security_incidents` table, the fields
relevant to the rate-limit gate); `createdAt` is a millisecond timestamp. -/
structure Incident where
  sessionId : String
  incidentType : String
  severity : String
  details : String
  createdAt : Nat
  deriving Repr, DecidableEq

/-- Persisted exam session row (`exam_sessions` table, the fields the claims
touch).  Answers are a finite map from question key to selected option. -/
structure Session where
  id : String
  hallTicketId : String
  studentId : String
  status : String
  answers : List (String × String)
  endTime : Option Nat
  questionIds : List String
  timeRemaining : Nat
  deriving Repr, DecidableEq

/-- Question row (`questions` table, the fields the claims touch). -/
structure Question where
  id : String
  examName : String
  questionText : String
  options : List String
  correctAnswer : String
  questionType : String
  marks : Nat
  deriving Repr, DecidableEq

/-- Hall ticket row (`hall_tickets` table, the fields session creation reads). -/
structure HallTicket where
  id : String
  hallTicketId : String
  examName : String
  rollNumber : String
  totalQuestions : Nat
  isActive : Bool
  deriving Repr, DecidableEq

/-- State of the persistent storage behind `DatabaseStorage`
(simple-name-verification.ts:241-518): each Postgres table is modelled as a
list of rows; user rows are carried by their id, the only user field the
modelled routes read. -/
structure Store where
  sessions : List Session
  incidents : List Incident
  users : List String
  questions : List Question
  hallTickets : List HallTicket
  deriving Repr, DecidableEq

/-- Embedding of `DatabaseStorage.getExamSession`
(simple-name-verification.ts:337-340): select the session row whose unique
primary key `id` matches. -/
def getExamSession (st : Store) (id : String) : Option Session :=
  st.sessions.find? (fun s => s.id == id)

/-- Count of stored incidents of the same `(sessionId, incidentType)` pair
created strictly within the last 60000 ms before `now` — the quantity the
WebSocket rate-limit gate compares against 3: the handler fetches
`DatabaseStorage.getSecurityIncidents(sessionId)` (the session's incidents)
and filters by type and `createdAt > oneMinuteAgo`; the count is insensitive
to the query's ordering. -/
def sameTypeRecent (incs : List Incident) (sid ty : String) (now : Nat) : Nat :=
  incs.countP (fun i => i.sessionId == sid && i.incidentType == ty
    && decide (now < i.createdAt + 60000))

/-- Count of stored incidents of a `(sessionId, incidentType)` pair whose
creation time lies in the trailing 60-second window ending at time `t`. -/
def windowCount (incs : List Incident) (sid ty : String) (t : Nat) : Nat :=
  incs.countP (fun i => i.sessionId == sid && i.incidentType == ty
    && decide (i.createdAt ≤ t) && decide (t < i.createdAt + 60000))

/-- One `security_violation` / `face_violation` WebSocket message together
with its arrival time. -/
structure WsViolationReq where
  now : Nat
  sessionId : String
  incidentType : String
  severity : String
  details : String
  senderIsStudent : Bool
  deriving Repr, DecidableEq

/-- Incident row created from a WebSocket violation message, stamped with the
arrival time. -/
def mkIncident (r : WsViolationReq) : Incident :=
  { sessionId := r.sessionId, incidentType := r.incidentType,
    severity := r.severity, details := r.details, createdAt := r.now }

/-- Guard chain of the `security_violation` / `face_violation` WebSocket
handler: required fields present, sender authenticated as a student, session
exists, and fewer than 3 same-type incidents for the session within the last
60 seconds. -/
def wsAccepts (st : Store) (r : WsViolationReq) : Bool :=
  !(r.sessionId == "" || r.incidentType == "" || r.severity == "" || r.details == "")
  && r.senderIsStudent
  && (getExamSession st r.sessionId).isSome
  && decide (sameTypeRecent st.incidents r.sessionId r.incidentType r.now < 3)

/-- Embedding of the WebSocket violation handler: when every guard passes the
incident is persisted, otherwise the message is silently dropped (each early
`return` in the source leaves the store unchanged). -/
def wsSecurityViolation (st : Store) (r : WsViolationReq) : Store :=
  if wsAccepts st r then { st with incidents := mkIncident r :: st.incidents } else st

/-- Sequential processing of WebSocket violation messages in arrival order. -/
def wsRunAll : Store → List WsViolationReq → Store
  | st, [] => st
  | st, r :: rs => wsRunAll (wsSecurityViolation st r) rs

/-- Embedding of `POST /api/security-incidents`: the parsed body is persisted
unconditionally — the handler has no rate-limit gate, in contrast with the
WebSocket path. -/
def httpCreateIncident (st : Store) (now : Nat) (sid ty sev d : String) :
    Store × Incident :=
  let inc : Incident := { sessionId := sid, incidentType := ty, severity := sev,
                          details := d, createdAt := now }
  ({ st with incidents := inc :: st.incidents }, inc)

/-- Embedding of `DatabaseStorage.updateExamSession`
(simple-name-verification.ts:350-357): apply the provided field updates to
the row matching `id` and return the updated row; only the fields the submit
route passes (answers, status, endTime) are modelled — the `updatedAt`
housekeeping column is not. -/
def updateExamSession (st : Store) (id : String) (answers : List (String × String))
    (status : String) (endTime : Option Nat) : Store × Option Session :=
  match st.sessions.find? (fun x => x.id == id) with
  | none => (st, none)
  | some s =>
    let s' := { s with answers := answers, status := status, endTime := endTime }
    ({ st with sessions := st.sessions.map (fun x => if x.id == id then s' else x) },
      some s')

/-- Embedding of `POST /api/exam-sessions/:id/submit`: a missing session is a
404 (`none`); otherwise the session is unconditionally updated with the
request body's answers, status `submitted` and a fresh `endTime`. -/
def submitExamRoute (st : Store) (id : String) (answers : List (String × String))
    (now : Nat) : Store × Option Session :=
  match getExamSession st id with
  | none => (st, none)
  | some _ => updateExamSession st id answers "submitted" (some now)

/-- Embedding of `DatabaseStorage.getRandomQuestions`
(simple-name-verification.ts:449-456): select the questions of the exam
name, ordered by `RANDOM()`, limited to `n` rows; the random order is
modelled as the stored order — the claims depend only on which rows qualify,
never on their order. -/
def getRandomQuestions (st : Store) (examName : String) (n : Nat) : List Question :=
  (st.questions.filter (fun q => q.examName == examName)).take n

/-- Body of a `POST /api/exam-sessions` request (the fields the route reads),
with the server-side arrival time. -/
structure CreateSessionReq where
  hallTicketId : String
  timeRemaining : Nat
  status : String
  now : Nat
  deriving Repr, DecidableEq

/-- Outcome of session creation: 400 for a missing or inactive hall ticket,
the distinguishable `NO_QUESTIONS_IN_SYSTEM` error, or a session (either the
already existing one or the newly created one). -/
inductive CreateSessionResult where
  | invalidHallTicket
  | noQuestionsInSystem
  | session (s : Session)
  deriving Repr, DecidableEq

/-- New session row built from the request body, as the route passes it to
`storage.createExamSession` (answers start empty, no end time). -/
def mkNewSession (newId : String) (r : CreateSessionReq) (studentId : String)
    (qids : List String) : Session :=
  { id := newId, hallTicketId := r.hallTicketId, studentId := studentId,
    status := r.status, answers := [], endTime := none, questionIds := qids,
    timeRemaining := r.timeRemaining }

/-- Embedding of `POST /api/exam-sessions`: validate the hall ticket, upsert
the student user when `getUser` finds none (`DatabaseStorage.upsertUser`
inserts the row; this happens before any question check), return an existing
session if one exists, derive questions (exam-specific via
`getRandomQuestions`, then fallback to the whole bank from
`DatabaseStorage.getAllQuestions` shuffled and sliced to
`totalQuestions || 20` — the shuffle is modelled as the stored order),
failing with `NO_QUESTIONS_IN_SYSTEM` when the bank is empty, and otherwise
create the session. -/
def createExamSessionRoute (st : Store) (r : CreateSessionReq) (newId : String) :
    Store × CreateSessionResult :=
  match st.hallTickets.find? (fun h => h.id == r.hallTicketId) with
  | none => (st, CreateSessionResult.invalidHallTicket)
  | some ht =>
    if !ht.isActive then (st, CreateSessionResult.invalidHallTicket)
    else
      let studentId := "student_" ++ ht.rollNumber
      let st1 := if st.users.contains studentId then st
                 else { st with users := studentId :: st.users }
      match st1.sessions.find?
          (fun s => s.studentId == studentId && s.hallTicketId == r.hallTicketId) with
      | some existing => (st1, CreateSessionResult.session existing)
      | none =>
        let examQuestions := getRandomQuestions st1 ht.examName ht.totalQuestions
        if examQuestions.isEmpty then
          if st1.questions.isEmpty then (st1, CreateSessionResult.noQuestionsInSystem)
          else
            let limit := min (if ht.totalQuestions = 0 then 20 else ht.totalQuestions)
              st1.questions.length
            let fallback := st1.questions.take limit
            let sess := mkNewSession newId r studentId (fallback.map (fun q => q.id))
            ({ st1 with sessions := sess :: st1.sessions },
              CreateSessionResult.session sess)
        else
          let sess := mkNewSession newId r studentId (examQuestions.map (fun q => q.id))
          ({ st1 with sessions := sess :: st1.sessions },
            CreateSessionResult.session sess)

/-- Student-facing question shape of `GET /api/exam-sessions/:id/questions`:
only id, questionText, options, questionType and marks — by construction it
has no `correctAnswer` field. -/
structure PublicQuestion where
  id : String
  questionText : String
  options : List String
  questionType : String
  marks : Nat
  deriving Repr, DecidableEq

/-- Projection of a stored question to the student-facing shape, exactly the
object literal built in the route. -/
def toPublicQuestion (q : Question) : PublicQuestion :=
  { id := q.id, questionText := q.questionText, options := q.options,
    questionType := q.questionType, marks := q.marks }

/-- Outcome of the session-questions endpoint. -/
inductive QuestionsResult where
  | notFound
  | noQuestionsAssigned
  | ok (qs : List PublicQuestion)
  deriving Repr, DecidableEq

/-- Embedding of `GET /api/exam-sessions/:id/questions`: 404 for a missing
session, `NO_QUESTIONS_ASSIGNED` for an empty question list, otherwise the
stored questions with ids in the session's list, each projected to the
student-facing shape. -/
def getSessionQuestionsRoute (st : Store) (id : String) : QuestionsResult :=
  match getExamSession st id with
  | none => QuestionsResult.notFound
  | some s =>
    if s.questionIds.isEmpty then QuestionsResult.noQuestionsAssigned
    else QuestionsResult.ok
      ((st.questions.filter (fun q => s.questionIds.contains q.id)).map toPublicQuestion)

/-- Agreement of two question rows on every field except `correctAnswer`. -/
def agreeExceptAnswer (q1 q2 : Question) : Prop :=
  q1.id = q2.id ∧ q1.examName = q2.examName ∧ q1.questionText = q2.questionText
  ∧ q1.options = q2.options ∧ q1.questionType = q2.questionType ∧ q1.marks = q2.marks

/-! ## Theorems for the claims -/

/-- Concrete paused client state used to exercise the countdown. -/
def pausedClientState : ClientState :=
  { violationCount := 1, warningCount := 1, isPaused := true, timeRemaining := 10,
    lookAwayCount := 0, multipleFaceCount := 0, showWarning := false,
    lastSnapshotTime := 0 }

/-- Concrete fresh (unpaused, zero-violation) client state. -/
def pausedClientStateZero : ClientState :=
  { violationCount := 0, warningCount := 0, isPaused := false, timeRemaining := 600,
    lookAwayCount := 0, multipleFaceCount := 0, showWarning := false,
    lastSnapshotTime := 0 }

/-- Concrete client state with two prior browser violations and some face
activity on the counters. -/
def twoViolationsState : ClientState :=
  { violationCount := 2, warningCount := 2, isPaused := false, timeRemaining := 300,
    lookAwayCount := 4, multipleFaceCount := 1, showWarning := false,
    lastSnapshotTime := 0 }

/-- C2 counterexample: the countdown effect never consults `isPaused`, so with
the session paused (`isPaused = true`) one elapsed second still decrements
`timeRemaining` from 10 to 9 — refuting the part of the claim that says no
decrement occurs while the session is paused. -/
theorem timer_decrements_while_paused :
    pausedClientState.isPaused = true
    ∧ pausedClientState.timeRemaining = 10
    ∧ (runTimer 1 pausedClientState).1.timeRemaining = 9 := by decide

/-- C2 (amended): over any `n` elapsed seconds the countdown decreases
`timeRemaining` by exactly one per second regardless of the paused flag
(which it leaves untouched and never reads), so it is non-increasing; and
`submitExam` is triggered exactly once, namely when the time reaches 0. -/
theorem timer_monotone_single_submit (n : Nat) (st : ClientState) :
    (runTimer n st).1.timeRemaining = st.timeRemaining - n
    ∧ (runTimer n st).2 = (if 0 < st.timeRemaining ∧ st.timeRemaining ≤ n then 1 else 0)
    ∧ (runTimer n st).1.isPaused = st.isPaused := by
  induction n generalizing st with
  | zero =>
    refine ⟨rfl, ?_, rfl⟩
    show (0 : Nat) = _
    split
    next h => omega
    next => rfl
  | succ n ih =>
    by_cases h0 : st.timeRemaining = 0
    · have : ¬(0 < st.timeRemaining ∧ st.timeRemaining ≤ n + 1) := by omega
      simp [runTimer, h0, this]
    · by_cases h1 : st.timeRemaining ≤ 1
      · have ht : st.timeRemaining = 1 := by omega
        have hrec := ih { st with timeRemaining := 0 }
        simp only [runTimer, timerTick, h0, ht] at *
        refine ⟨?_, ?_, ?_⟩
        · simpa using hrec.1
        · have : ¬((0:Nat) < 0 ∧ (0:Nat) ≤ n) := by omega
          simp only [if_pos (le_refl 1)] at *
          simp only [hrec.2.1]
          simp [this]
        · simpa [if_pos (le_refl 1)] using hrec.2.2
      · have hrec := ih { st with timeRemaining := st.timeRemaining - 1 }
        simp only [runTimer, timerTick, h0, if_neg h1, if_false] at *
        refine ⟨?_, ?_, ?_⟩
        · have := hrec.1
          simp only [this]
          omega
        · have := hrec.2.1
          simp only [this]
          by_cases hc : st.timeRemaining ≤ n + 1
          · have hA : 0 < st.timeRemaining - 1 ∧ st.timeRemaining - 1 ≤ n := by omega
            have hB : 0 < st.timeRemaining ∧ st.timeRemaining ≤ n + 1 := by omega
            simp [hA, hB]
          · have hA : ¬(0 < st.timeRemaining - 1 ∧ st.timeRemaining - 1 ≤ n) := by
              omega
            have hB : ¬(0 < st.timeRemaining ∧ st.timeRemaining ≤ n + 1) := by omega
            simp [hA, hB]
            omega
        · simpa using hrec.2.2

/-- C4: starting from an unpaused client, a browser violation increments the
violation counter by one, and the transition to paused happens exactly when
that counter goes from 0 to 1 — both in the local state and in the
`policy_update "paused"` announcement; no later violation pauses. -/
theorem pause_iff_first_violation (st : ClientState) (vt sev : String)
    (h : st.isPaused = false) :
    (handleSecurityViolation st vt sev).1.violationCount = st.violationCount + 1
    ∧ ((handleSecurityViolation st vt sev).1.isPaused = true ↔ st.violationCount = 0)
    ∧ (ClientMsg.policyUpdate "paused" ∈ (handleSecurityViolation st vt sev).2
        ↔ st.violationCount = 0) := by
  unfold handleSecurityViolation
  by_cases h1 : st.violationCount + 1 = 1
  · have h0 : st.violationCount = 0 := by omega
    simp [h1, h0]
  · have h0 : ¬(st.violationCount = 0) := by omega
    by_cases h3 : 3 ≤ st.violationCount + 1 <;>
      simp [h1, h3, h, h0]

/-- Closed instance of `pause_iff_first_violation` at a fresh client state and
a `tab_switch` violation. -/
theorem pause_iff_first_violation_witness :
    (handleSecurityViolation pausedClientStateZero "tab_switch" "medium").1.violationCount
        = pausedClientStateZero.violationCount + 1
    ∧ ((handleSecurityViolation pausedClientStateZero "tab_switch" "medium").1.isPaused
          = true ↔ pausedClientStateZero.violationCount = 0)
    ∧ (ClientMsg.policyUpdate "paused"
          ∈ (handleSecurityViolation pausedClientStateZero "tab_switch" "medium").2
        ↔ pausedClientStateZero.violationCount = 0) :=
  pause_iff_first_violation pausedClientStateZero "tab_switch" "medium" rfl

/-- C5: when the browser violation counter reaches 3 (or more), the handler —
for every violation kind and independently of the face counters carried in
the state — announces the auto-submit and schedules `submitExam` with a
2000 ms grace delay (which then posts the submit request, setting the session
status to `submitted`). -/
theorem third_violation_auto_submit (st : ClientState) (vt sev : String)
    (h : 3 ≤ st.violationCount + 1) :
    (handleSecurityViolation st vt sev).2 =
      [ClientMsg.securityViolation vt sev, ClientMsg.policyUpdate "auto_submitted",
        ClientMsg.scheduleAutoSubmit 2000]
    ∧ (handleSecurityViolation st vt sev).1.violationCount = st.violationCount + 1 := by
  unfold handleSecurityViolation
  have h1 : ¬(st.violationCount + 1 = 1) := by omega
  simp [h1, h]

/-- Closed instance of `third_violation_auto_submit` at a client state with
two prior violations and arbitrary face-counter noise. -/
theorem third_violation_auto_submit_witness :
    (handleSecurityViolation twoViolationsState "window_blur" "medium").2 =
      [ClientMsg.securityViolation "window_blur" "medium",
        ClientMsg.policyUpdate "auto_submitted", ClientMsg.scheduleAutoSubmit 2000]
    ∧ (handleSecurityViolation twoViolationsState "window_blur" "medium").1.violationCount
        = twoViolationsState.violationCount + 1 :=
  third_violation_auto_submit twoViolationsState "window_blur" "medium" (by decide)

/-- Status broadcasts carry no incident message. -/
lemma statusStep_filter_incident (st : ClientState) (s : FaceSample) (now : Nat) :
    ((statusStep st s now).2).filter isIncidentMsg = [] := by
  unfold statusStep
  split <;> simp [isIncidentMsg]

/-- Status broadcasts carry no policy action. -/
lemma statusStep_filter_policy (st : ClientState) (s : FaceSample) (now : Nat) :
    ((statusStep st s now).2).filter isPolicyAction = [] := by
  unfold statusStep
  split <;> simp [isPolicyAction]

/-- The status broadcast step only touches `lastSnapshotTime`. -/
lemma statusStep_state (st : ClientState) (s : FaceSample) (now : Nat) :
    (statusStep st s now).1.violationCount = st.violationCount
    ∧ (statusStep st s now).1.isPaused = st.isPaused
    ∧ (statusStep st s now).1.lookAwayCount = st.lookAwayCount
    ∧ (statusStep st s now).1.multipleFaceCount = st.multipleFaceCount
    ∧ (statusStep st s now).1.showWarning = st.showWarning := by
  unfold statusStep
  split <;> simp

/-- The face-sample branch never touches the browser violation counter or the
paused flag, and never emits a policy action. -/
lemma faceBranch_no_policy (st : ClientState) (s : FaceSample) :
    (faceBranch st s).1.violationCount = st.violationCount
    ∧ (faceBranch st s).1.isPaused = st.isPaused
    ∧ ((faceBranch st s).2).filter isPolicyAction = [] := by
  unfold faceBranch
  split
  · simp [isPolicyAction]
  · split
    · split
      · simp [isPolicyAction]
      · split
        · simp [isPolicyAction]
        · split <;> simp [isPolicyAction]
    · split <;> simp [isPolicyAction]

/-- One `handleMonitoring` step never touches the browser violation counter
or the paused flag, and never emits a policy action. -/
lemma handleMonitoring_no_policy (st : ClientState) (s : FaceSample) (now : Nat) :
    (handleMonitoring st s now).1.violationCount = st.violationCount
    ∧ (handleMonitoring st s now).1.isPaused = st.isPaused
    ∧ ((handleMonitoring st s now).2).filter isPolicyAction = [] := by
  unfold handleMonitoring
  have hb := faceBranch_no_policy st s
  have hs := statusStep_state (faceBranch st s).1 s now
  refine ⟨?_, ?_, ?_⟩
  · rw [hs.1, hb.1]
  · rw [hs.2.1, hb.2.1]
  · rw [List.filter_append, hb.2.2, statusStep_filter_policy]
    rfl

/-- C8: over an arbitrary stream of face samples, the face-monitoring path
leaves the browser violation counter and the paused flag untouched and emits
no pause or auto-submit action — face-sample violations alone never pause or
auto-submit the session; those transitions are driven only by the browser
violation counter. -/
theorem face_violations_never_pause_or_submit (st : ClientState)
    (samples : List (FaceSample × Nat)) :
    (runFaceSamples st samples).1.violationCount = st.violationCount
    ∧ (runFaceSamples st samples).1.isPaused = st.isPaused
    ∧ ((runFaceSamples st samples).2).filter isPolicyAction = [] := by
  induction samples generalizing st with
  | nil => exact ⟨rfl, rfl, rfl⟩
  | cons p rest ih =>
    obtain ⟨s, now⟩ := p
    have hstep := handleMonitoring_no_policy st s now
    have hrest := ih (handleMonitoring st s now).1
    refine ⟨?_, ?_, ?_⟩
    · show (runFaceSamples (handleMonitoring st s now).1 rest).1.violationCount = _
      rw [hrest.1, hstep.1]
    · show (runFaceSamples (handleMonitoring st s now).1 rest).1.isPaused = _
      rw [hrest.2.1, hstep.2.1]
    · show ((handleMonitoring st s now).2
          ++ (runFaceSamples (handleMonitoring st s now).1 rest).2).filter isPolicyAction
          = []
      rw [List.filter_append, hstep.2.2, hrest.2.2]
      rfl

/-- C7: every face sample with `multipleFaces` increments `multipleFaceCount`
and emits exactly one incident-bearing message on that very occurrence — the
`multiple_faces` face violation with severity `critical`; the classifier
never suppresses it. -/
theorem multiple_faces_always_critical (st : ClientState) (s : FaceSample) (now : Nat)
    (h : s.multipleFaces = true) :
    (handleMonitoring st s now).1.multipleFaceCount = st.multipleFaceCount + 1
    ∧ ((handleMonitoring st s now).2).filter isIncidentMsg =
        [ClientMsg.faceViolation "multiple_faces" "critical"] := by
  unfold handleMonitoring
  have hs := statusStep_state (faceBranch st s).1 s now
  constructor
  · rw [hs.2.2.2.1]
    unfold faceBranch
    simp [h]
  · rw [List.filter_append, statusStep_filter_incident]
    unfold faceBranch
    simp [h, isIncidentMsg]

/-- Concrete sample with multiple faces visible. -/
def multiFaceSample : FaceSample :=
  { faceDetected := true, multipleFaces := true, lookingAway := false }

/-- Closed instance of `multiple_faces_always_critical` at a fresh client
state. -/
theorem multiple_faces_always_critical_witness :
    (handleMonitoring pausedClientStateZero multiFaceSample 0).1.multipleFaceCount
        = pausedClientStateZero.multipleFaceCount + 1
    ∧ ((handleMonitoring pausedClientStateZero multiFaceSample 0).2).filter isIncidentMsg
        = [ClientMsg.faceViolation "multiple_faces" "critical"] :=
  multiple_faces_always_critical pausedClientStateZero multiFaceSample 0 rfl

/-- Client state two samples into a looking-away streak. -/
def streakTwoState : ClientState :=
  { violationCount := 0, warningCount := 0, isPaused := false, timeRemaining := 600,
    lookAwayCount := 2, multipleFaceCount := 0, showWarning := false,
    lastSnapshotTime := 0 }

/-- Sample where the face is detected and not looking away, but a second face
is visible. -/
def multiFaceNotAwaySample : FaceSample :=
  { faceDetected := true, multipleFaces := true, lookingAway := false }

/-- C6 counterexample: the claim says the streak counter resets on any sample
with `lookingAway = false` and `faceDetected = true`, but when such a sample
also has `multipleFaces = true` the monitoring effect takes the
multiple-faces branch and the streak counter is left at 2 instead of being
reset. -/
theorem lookaway_reset_blocked_by_multiple_faces :
    streakTwoState.lookAwayCount = 2
    ∧ multiFaceNotAwaySample.lookingAway = false
    ∧ multiFaceNotAwaySample.faceDetected = true
    ∧ (handleMonitoring streakTwoState multiFaceNotAwaySample 0).1.lookAwayCount = 2 := by
  decide

/-- C6 (amended): on samples without multiple faces the looking-away streak
behaves as claimed — each looking-away sample increments the streak; count 1
only raises the local warning with nothing persisted, count 2 persists
nothing, exactly count 3 emits the single `looking_away_repeated`/high
violation, every count above 3 emits one `looking_away`/medium incident — and
the streak resets on a sample with `lookingAway = false` and
`faceDetected = true` (the reset additionally requires
`multipleFaces = false`, which is the amendment). -/
theorem lookaway_streak_policy (st : ClientState) (s : FaceSample) (now : Nat)
    (hmf : s.multipleFaces = false) :
    (s.lookingAway = true →
      (handleMonitoring st s now).1.lookAwayCount = st.lookAwayCount + 1
      ∧ ((handleMonitoring st s now).2).filter isIncidentMsg =
          (if st.lookAwayCount + 1 = 3 then
            [ClientMsg.faceViolation "looking_away_repeated" "high"]
          else if 3 < st.lookAwayCount + 1 then
            [ClientMsg.httpIncident "looking_away" "medium"]
          else [])
      ∧ (st.lookAwayCount = 0 → (handleMonitoring st s now).1.showWarning = true))
    ∧ (s.lookingAway = false → s.faceDetected = true →
        (handleMonitoring st s now).1.lookAwayCount = 0) := by
  have hs := statusStep_state (faceBranch st s).1 s now
  have hcnt : (handleMonitoring st s now).1.lookAwayCount
      = (faceBranch st s).1.lookAwayCount := hs.2.2.1
  have hwarn : (handleMonitoring st s now).1.showWarning
      = (faceBranch st s).1.showWarning := hs.2.2.2.2
  have hmsgs : ((handleMonitoring st s now).2).filter isIncidentMsg
      = ((faceBranch st s).2).filter isIncidentMsg := by
    show ((faceBranch st s).2 ++ (statusStep (faceBranch st s).1 s now).2).filter
        isIncidentMsg = _
    rw [List.filter_append, statusStep_filter_incident, List.append_nil]
  constructor
  · intro hla
    rw [hcnt, hwarn, hmsgs]
    unfold faceBranch
    simp only [hmf, hla, Bool.false_eq_true, if_false, if_true]
    by_cases h1 : st.lookAwayCount + 1 = 1
    · have h0 : st.lookAwayCount = 0 := by omega
      have h3 : ¬(st.lookAwayCount + 1 = 3) := by omega
      have h4 : ¬(3 < st.lookAwayCount + 1) := by omega
      simp [h1, h3, h4, isIncidentMsg]
    · by_cases h3 : st.lookAwayCount + 1 = 3
      · have h0 : ¬(st.lookAwayCount = 0) := by omega
        simp [h1, h3, h0, isIncidentMsg]
      · by_cases h4 : 3 < st.lookAwayCount + 1
        · have h0 : ¬(st.lookAwayCount = 0) := by omega
          simp [h1, h3, h4, h0, isIncidentMsg]
        · have h0 : ¬(st.lookAwayCount = 0) := by omega
          simp [h1, h3, h4, h0, isIncidentMsg]
  · intro hla hfd
    rw [hcnt]
    unfold faceBranch
    simp only [hmf, hla, hfd, Bool.false_eq_true, if_false, if_true]
    by_cases hc : 0 < st.lookAwayCount
    · simp [hc]
    · simp [hc]
      omega

/-- Sample with the student looking away and exactly one face in frame. -/
def lookingAwaySample : FaceSample :=
  { faceDetected := true, multipleFaces := false, lookingAway := true }

/-- Closed instance of `lookaway_streak_policy` at streak count 2, where the
third consecutive looking-away sample yields exactly the
`looking_away_repeated`/high violation. -/
theorem lookaway_streak_policy_witness :
    (handleMonitoring streakTwoState lookingAwaySample 0).1.lookAwayCount = 3
    ∧ ((handleMonitoring streakTwoState lookingAwaySample 0).2).filter isIncidentMsg =
        [ClientMsg.faceViolation "looking_away_repeated" "high"] := by
  have h := (lookaway_streak_policy streakTwoState lookingAwaySample 0 rfl).1 rfl
  exact ⟨h.1, by simpa using h.2.1⟩

/-- Counting with a pointwise weaker predicate counts no more elements. -/
lemma countP_le_countP {α : Type} (p q : α → Bool) (l : List α)
    (h : ∀ x ∈ l, p x = true → q x = true) : l.countP p ≤ l.countP q := by
  induction l with
  | nil => simp
  | cons a l ih =>
    rw [List.countP_cons, List.countP_cons]
    have hl := ih (fun x hx => h x (List.mem_cons_of_mem a hx))
    by_cases hp : p a = true
    · have hq := h a (List.mem_cons_self a l) hp
      simp [hp, hq]
      omega
    · simp [hp]
      split <;> omega

/-- The WebSocket violation handler either drops the message or persists it,
and it persists only when strictly fewer than 3 same-type incidents for the
session were created within the last 60 seconds. -/
lemma wsStep_incidents_cases (st : Store) (r : WsViolationReq) :
    (wsSecurityViolation st r).incidents = st.incidents
    ∨ ((wsSecurityViolation st r).incidents = mkIncident r :: st.incidents
        ∧ sameTypeRecent st.incidents r.sessionId r.incidentType r.now < 3) := by
  unfold wsSecurityViolation
  by_cases h : wsAccepts st r
  · right
    refine ⟨by simp [h], ?_⟩
    unfold wsAccepts at h
    simp only [Bool.and_eq_true, decide_eq_true_eq] at h
    exact h.2
  · left
    simp [h]

/-- One WebSocket violation step preserves the trailing-window bound: if no
`(sessionId, incidentType)` pair has more than 3 incidents in any trailing
60-second window, the same holds after the step, because any window that
contains the new incident ends no earlier than its creation time, so all
other incidents of that pair in the window were counted by the gate. -/
lemma wsStep_window_le (st : Store) (r : WsViolationReq)
    (hb : ∀ sid ty t, windowCount st.incidents sid ty t ≤ 3)
    (sid ty : String) (t : Nat) :
    windowCount (wsSecurityViolation st r).incidents sid ty t ≤ 3 := by
  rcases wsStep_incidents_cases st r with h | ⟨h, hlt⟩
  · rw [h]
    exact hb sid ty t
  · rw [h]
    unfold windowCount
    rw [List.countP_cons]
    split
    next hw =>
      simp only [mkIncident, Bool.and_eq_true, beq_iff_eq, decide_eq_true_eq] at hw
      obtain ⟨⟨⟨hsid, hty⟩, hle⟩, hlt2⟩ := hw
      have hmono : windowCount st.incidents sid ty t
          ≤ sameTypeRecent st.incidents r.sessionId r.incidentType r.now := by
        unfold windowCount sameTypeRecent
        apply countP_le_countP
        intro i _ hpi
        simp only [Bool.and_eq_true, beq_iff_eq, decide_eq_true_eq] at hpi ⊢
        obtain ⟨⟨⟨hisid, hity⟩, hile⟩, hilt⟩ := hpi
        exact ⟨⟨by rw [hisid, ← hsid], by rw [hity, ← hty]⟩, by omega⟩
      unfold windowCount at hmono
      omega
    next =>
      have := hb sid ty t
      unfold windowCount at this
      omega

/-- C1 (amended): the 60-second / 3-occurrence rate limit is enforced on the
WebSocket entry path: for every sequence of `security_violation` /
`face_violation` messages processed from a store with no prior incidents,
every `(sessionId, incidentType)` pair has at most 3 persisted incidents in
every trailing 60-second window.  (The HTTP entry path bypasses this gate —
see `http_incident_bypasses_rate_limit`.) -/
theorem ws_rate_limit_window_bound (rs : List WsViolationReq) (sess : List Session)
    (us : List String) (qs : List Question) (hts : List HallTicket)
    (sid ty : String) (t : Nat) :
    windowCount (wsRunAll
      { sessions := sess, incidents := [], users := us, questions := qs,
        hallTickets := hts } rs).incidents sid ty t ≤ 3 := by
  have hrun : ∀ (rs : List WsViolationReq) (st : Store),
      (∀ sid ty t, windowCount st.incidents sid ty t ≤ 3) →
      ∀ sid ty t, windowCount (wsRunAll st rs).incidents sid ty t ≤ 3 := by
    intro rs
    induction rs with
    | nil => intro st hb; exact hb
    | cons r rs ih =>
      intro st hb
      exact ih (wsSecurityViolation st r) (fun sid ty t => wsStep_window_le st r hb sid ty t)
  exact hrun rs _ (fun sid ty t => by simp [windowCount]) sid ty t

/-- Session row used by the rate-limit counterexample. -/
def rlSession : Session :=
  { id := "s1", hallTicketId := "h1", studentId := "student_R1", status := "in_progress",
    answers := [], endTime := none, questionIds := ["q1"], timeRemaining := 600 }

/-- An incident of the pair (`s1`, `looking_away`) created at time `t`. -/
def rlIncident (t : Nat) : Incident :=
  { sessionId := "s1", incidentType := "looking_away", severity := "medium",
    details := "looking away", createdAt := t }

/-- Store already holding 3 incidents of the same pair created within the
last 60 seconds. -/
def rlStore : Store :=
  { sessions := [rlSession], incidents := [rlIncident 3000, rlIncident 2000, rlIncident 1000],
    users := [], questions := [], hallTickets := [] }

/-- The same violation delivered over the WebSocket path at time 4000. -/
def rlWsReq : WsViolationReq :=
  { now := 4000, sessionId := "s1", incidentType := "looking_away", severity := "medium",
    details := "looking away", senderIsStudent := true }

/-- C1 counterexample: with 3 incidents of the pair (`s1`, `looking_away`)
created within the trailing 60 seconds, the WebSocket path drops a fourth
violation, but the HTTP endpoint `POST /api/security-incidents` persists it
unconditionally, leaving 4 incidents of the pair inside one trailing
60-second window — the claim's bound does not hold regardless of entry
path. -/
theorem http_incident_bypasses_rate_limit :
    3 ≤ sameTypeRecent rlStore.incidents "s1" "looking_away" 4000
    ∧ wsSecurityViolation rlStore rlWsReq = rlStore
    ∧ windowCount (httpCreateIncident rlStore 4000 "s1" "looking_away" "medium"
        "looking away").1.incidents "s1" "looking_away" 4000 = 4 := by
  decide

/-- Session already finalized: submitted at time 100 with answers recorded. -/
def submittedSession : Session :=
  { id := "s1", hallTicketId := "h1", studentId := "student_R1", status := "submitted",
    answers := [("1", "B"), ("2", "C")], endTime := some 100, questionIds := ["q1", "q2"],
    timeRemaining := 0 }

/-- Store holding only the already-submitted session. -/
def submittedStore : Store :=
  { sessions := [submittedSession], incidents := [], users := ["student_R1"],
    questions := [], hallTickets := [] }

/-- C3 counterexample: re-submitting the already-submitted session at time
200 returns a session whose `endTime` is 200 — the stored `endTime` of 100 is
overwritten, so the second call is not a no-op returning the
already-finalized session. -/
theorem second_submit_mutates_end_time :
    submittedSession.status = "submitted"
    ∧ submittedSession.endTime = some 100
    ∧ ((submitExamRoute submittedStore "s1" submittedSession.answers 200).2.bind
        Session.endTime) = some 200
    ∧ (submitExamRoute submittedStore "s1" submittedSession.answers 200).2.bind
        Session.endTime ≠ submittedSession.endTime := by
  decide

/-- C3 (amended): a second submission request on an already-submitted session
does not error and again returns a session in status `submitted`, but it is
not a no-op: the route unconditionally re-applies the request's answers and
stamps a fresh `endTime`, overwriting the stored finalization. -/
theorem second_submit_overwrites (st : Store) (id : String) (s : Session)
    (answers : List (String × String)) (now : Nat)
    (hfind : getExamSession st id = some s)
    (hsub : s.status = "submitted") :
    (submitExamRoute st id answers now).2 =
      some { s with answers := answers, status := "submitted", endTime := some now }
    ∧ ((submitExamRoute st id answers now).2).map Session.status = some s.status := by
  have hfind' : st.sessions.find? (fun x => x.id == id) = some s := hfind
  unfold submitExamRoute
  simp only [hfind]
  unfold updateExamSession
  simp only [hfind']
  refine ⟨?_, ?_⟩
  · simp
  · simp [hsub]

/-- Closed instance of `second_submit_overwrites` at the already-submitted
concrete session, re-submitted at time 200. -/
theorem second_submit_overwrites_witness :
    (submitExamRoute submittedStore "s1" submittedSession.answers 200).2 =
      some
        { submittedSession with
          answers := submittedSession.answers, status := "submitted", endTime := some 200 }
    ∧ ((submitExamRoute submittedStore "s1" submittedSession.answers 200).2).map
        Session.status = some submittedSession.status :=
  second_submit_overwrites submittedStore "s1" submittedSession
    submittedSession.answers 200 rfl rfl

/-- Active hall ticket whose exam has no questions anywhere in the bank. -/
def noqHallTicket : HallTicket :=
  { id := "h1", hallTicketId := "HT1", examName := "Algebra", rollNumber := "R1",
    totalQuestions := 5, isActive := true }

/-- Store with the active hall ticket, an empty question bank, no users and no
sessions. -/
def noqStore : Store :=
  { sessions := [], incidents := [], users := [], questions := [],
    hallTickets := [noqHallTicket] }

/-- Session-creation request against that hall ticket. -/
def noqReq : CreateSessionReq :=
  { hallTicketId := "h1", timeRemaining := 300, status := "in_progress", now := 0 }

/-- C9 counterexample: with no derivable questions the creation request does
fail with the distinguishable no-questions error and no session is created,
but the request is not free of partial state — the student user record
`student_R1`, upserted before the question check, remains in the store. -/
theorem no_questions_leaves_user_record :
    (createExamSessionRoute noqStore noqReq "new1").2
        = CreateSessionResult.noQuestionsInSystem
    ∧ (createExamSessionRoute noqStore noqReq "new1").1.sessions = []
    ∧ noqStore.users = []
    ∧ (createExamSessionRoute noqStore noqReq "new1").1.users = ["student_R1"] := by
  decide

/-- C9 (amended): when the question bank is empty (so neither exam-specific
nor fallback questions exist), session creation fails with the
distinguishable `NO_QUESTIONS_IN_SYSTEM` error and no session or incident is
created — but the student user upserted earlier in the same request may
remain, so the failed request is not entirely free of persisted state. -/
theorem no_questions_fails_without_session (st : Store) (r : CreateSessionReq)
    (newId : String) (ht : HallTicket)
    (hfind : st.hallTickets.find? (fun h => h.id == r.hallTicketId) = some ht)
    (hactive : ht.isActive = true)
    (hnoq : st.questions = [])
    (hnosess : st.sessions.find?
      (fun s => s.studentId == ("student_" ++ ht.rollNumber)
        && s.hallTicketId == r.hallTicketId) = none) :
    (createExamSessionRoute st r newId).2 = CreateSessionResult.noQuestionsInSystem
    ∧ (createExamSessionRoute st r newId).1.sessions = st.sessions
    ∧ (createExamSessionRoute st r newId).1.incidents = st.incidents
    ∧ (createExamSessionRoute st r newId).1.users =
        (if st.users.contains ("student_" ++ ht.rollNumber) then st.users
         else ("student_" ++ ht.rollNumber) :: st.users) := by
  unfold createExamSessionRoute
  simp only [hfind, hactive, Bool.not_true, if_false]
  by_cases hc : st.users.contains ("student_" ++ ht.rollNumber)
  · simp only [hc, if_true, hnosess, hnoq, getRandomQuestions]
    simp [hnoq]
  · simp only [hc, if_false, getRandomQuestions, hnoq]
    simp [hnosess, hnoq]

/-- Closed instance of `no_questions_fails_without_session` at the concrete
empty-bank store. -/
theorem no_questions_fails_without_session_witness :
    (createExamSessionRoute noqStore noqReq "new1").2
        = CreateSessionResult.noQuestionsInSystem
    ∧ (createExamSessionRoute noqStore noqReq "new1").1.sessions = noqStore.sessions
    ∧ (createExamSessionRoute noqStore noqReq "new1").1.incidents = noqStore.incidents
    ∧ (createExamSessionRoute noqStore noqReq "new1").1.users =
        (if noqStore.users.contains ("student_" ++ noqHallTicket.rollNumber) then
          noqStore.users
         else ("student_" ++ noqHallTicket.rollNumber) :: noqStore.users) :=
  no_questions_fails_without_session noqStore noqReq "new1" noqHallTicket
    rfl rfl rfl rfl

/-- Filtering by id and projecting to the student-facing shape reads nothing
but the non-answer fields, so pointwise agreement up to `correctAnswer`
yields identical results. -/
lemma filter_map_public_eq (qids : List String) {l1 l2 : List Question}
    (h : List.Forall₂ agreeExceptAnswer l1 l2) :
    (l1.filter (fun q => qids.contains q.id)).map toPublicQuestion =
      (l2.filter (fun q => qids.contains q.id)).map toPublicQuestion := by
  induction h with
  | nil => rfl
  | @cons a b l1' l2' hab _ ih =>
    obtain ⟨hid, _, htext, hopt, htype, hmarks⟩ := hab
    rw [List.filter_cons, List.filter_cons, hid]
    split
    · rw [List.map_cons, List.map_cons, ih]
      have hpub : toPublicQuestion a = toPublicQuestion b := by
        unfold toPublicQuestion
        rw [hid, htext, hopt, htype, hmarks]
      rw [hpub]
    · exact ih

/-- C10: the student-facing session-questions endpoint returns only the id,
text, options, type and marks of each question (the response type
`PublicQuestion` has no `correctAnswer` field), and the response does not
depend on the stored correct answers: two stores whose question banks agree
on everything except `correctAnswer` produce identical responses. -/
theorem questions_hide_correct_answer (st1 st2 : Store) (id : String)
    (hsess : st1.sessions = st2.sessions)
    (hq : List.Forall₂ agreeExceptAnswer st1.questions st2.questions) :
    getSessionQuestionsRoute st1 id = getSessionQuestionsRoute st2 id := by
  unfold getSessionQuestionsRoute getExamSession
  rw [hsess]
  cases hfind : st2.sessions.find? (fun s => s.id == id) with
  | none => rfl
  | some s =>
    by_cases he : s.questionIds.isEmpty
    · simp [he]
    · simp only [he, if_false, Bool.false_eq_true]
      rw [filter_map_public_eq s.questionIds hq]

/-- Concrete question bank entry. -/
def demoQuestion : Question :=
  { id := "q1", examName := "Algebra", questionText := "2 + 2 = ?",
    options := ["3", "4"], correctAnswer := "B", questionType := "multiple_choice",
    marks := 1 }

/-- The same question with a different stored correct answer. -/
def demoQuestionAltAnswer : Question :=
  { demoQuestion with correctAnswer := "A" }

/-- Session pointing at the demo question. -/
def demoSession : Session :=
  { id := "s1", hallTicketId := "h1", studentId := "student_R1", status := "in_progress",
    answers := [], endTime := none, questionIds := ["q1"], timeRemaining := 600 }

/-- Store with the original question bank. -/
def demoStoreA : Store :=
  { sessions := [demoSession], incidents := [], users := [], questions := [demoQuestion],
    hallTickets := [] }

/-- Store identical except for the stored correct answer. -/
def demoStoreB : Store :=
  { demoStoreA with questions := [demoQuestionAltAnswer] }

/-- Closed instance of `questions_hide_correct_answer`: the two stores differ
only in the stored correct answer and yield identical student-facing
responses. -/
theorem questions_hide_correct_answer_witness :
    getSessionQuestionsRoute demoStoreA "s1" = getSessionQuestionsRoute demoStoreB "s1" :=
  questions_hide_correct_answer demoStoreA demoStoreB "s1" rfl
    (List.Forall₂.cons ⟨rfl, rfl, rfl, rfl, rfl, rfl⟩ List.Forall₂.nil)

end ExamPro
